import Mathlib

/-!
Shallow embedding of the HireLoop recruitment web application
(src/recruitment_app/app.py): a two-table relational store (roles and
candidates), a random candidate generator, and three request handlers
(index, new_role POST, view_role). Randomness is modelled by an explicit
stream of naturals `g : Nat → Nat`; each random draw of the Python code
consumes one position of the stream (`random.choice` picks index
`g k % length`, `random.randint lo hi` returns `lo + g k % (hi - lo + 1)`,
so every stream realises a possible run and together they cover all runs).
The SQLite tables are lists of rows in insertion order; AUTOINCREMENT ids
are modelled by counters carried in the database state.
-/

namespace HireLoop

/-- A row of the `roles` table. -/
structure RoleRow where
  id : Nat
  title : String
  description : String
  date_created : String
deriving DecidableEq, Repr

/-- A row of the `candidates` table. -/
structure CandidateRow where
  id : Nat
  role_id : Nat
  name : String
  current_title : String
  company : String
  location : String
  linkedin : String
  match_reason : String
  fit_score : Nat
  culture_score : Nat
  experience_score : Nat
deriving DecidableEq, Repr

/-- The persisted database state: the two tables plus the AUTOINCREMENT
counters for their integer primary keys. -/
structure DB where
  roles : List RoleRow
  candidates : List CandidateRow
  next_role_id : Nat
  next_candidate_id : Nat
deriving DecidableEq, Repr

/-- The freshly initialised database (both tables empty; SQLite
AUTOINCREMENT starts row ids at 1). -/
def emptyDB : DB := ⟨[], [], 1, 1⟩

/-- `random.choice` on list `l`, consuming stream position `k`. -/
def choiceAt (g : Nat → Nat) (k : Nat) (l : List α) (d : α) : α :=
  l.getD (g k % l.length) d

/-- `random.randint lo hi` (inclusive bounds), consuming stream position `k`. -/
def randintAt (g : Nat → Nat) (k lo hi : Nat) : Nat :=
  lo + g k % (hi - lo + 1)

/-- The `first_names` pool of `generate_dummy_candidates`. -/
def first_names : List String :=
  ["Aarav", "Liam", "Emma", "Noah", "Olivia", "Aria", "Ethan", "Mia",
   "Sophia", "Lucas", "Aaliyah", "Zara", "Jayden", "Alina", "David"]

/-- The `last_names` pool of `generate_dummy_candidates`. -/
def last_names : List String :=
  ["Patel", "Johnson", "Singh", "Garcia", "Kumar", "Williams", "Chen",
   "Khan", "Brown", "Rodriguez", "Ali", "Davis", "Nguyen", "Lee", "Shah"]

/-- The `companies` pool of `generate_dummy_candidates`. -/
def companies : List String :=
  ["TechNova", "DataSphere", "InnovateX", "CodeWorks", "NextGen"]

/-- The `locations` pool of `generate_dummy_candidates`. -/
def locations : List String :=
  ["San Francisco, CA", "Austin, TX", "Bangalore, India", "Dubai, UAE", "Remote"]

/-- The `match_reasons` pool of `generate_dummy_candidates`. -/
def match_reasons : List String :=
  ["Relevant experience in similar role",
   "Strong technical skills matching JD",
   "Excellent cultural alignment",
   "Recent experience at high-growth startup",
   "Highly recommended by references"]

/-- The five current-title templates interpolating the role title
(the list passed to `random.choice` inside the candidate dict). -/
def title_templates (role_title : String) : List String :=
  ["Senior " ++ role_title,
   role_title ++ " II",
   "Lead " ++ role_title,
   role_title ++ " Specialist",
   role_title ++ " Consultant"]

/-- A candidate record as produced by `generate_dummy_candidates` (the
Python dict: no id and no role_id yet, those are assigned at insertion). -/
structure GenCandidate where
  name : String
  current_title : String
  company : String
  location : String
  linkedin : String
  match_reason : String
  fit_score : Nat
  culture_score : Nat
  experience_score : Nat
deriving DecidableEq, Repr

/-- One loop iteration of `generate_dummy_candidates`: iteration `i`
consumes the nine random draws at stream positions `9*i .. 9*i+8`
(first name, last name, current_title choice, company, location,
match_reason, and the three scores, in source order). -/
def genCandidate (g : Nat → Nat) (role_title : String) (i : Nat) : GenCandidate :=
  { name := choiceAt g (9 * i) first_names "" ++ " "
        ++ choiceAt g (9 * i + 1) last_names ""
    current_title := choiceAt g (9 * i + 2) (title_templates role_title) ""
    company := choiceAt g (9 * i + 3) companies ""
    location := choiceAt g (9 * i + 4) locations ""
    linkedin := "https://linkedin.com/in/"
        ++ (choiceAt g (9 * i) first_names "").toLower
        ++ (choiceAt g (9 * i + 1) last_names "").toLower
    match_reason := choiceAt g (9 * i + 5) match_reasons ""
    fit_score := randintAt g (9 * i + 6) 60 100
    culture_score := randintAt g (9 * i + 7) 60 100
    experience_score := randintAt g (9 * i + 8) 60 100 }

/-- `generate_dummy_candidates(role_title, num_candidates=10)`: the loop
appending one generated candidate per iteration. -/
def generate_dummy_candidates (g : Nat → Nat) (role_title : String)
    (num_candidates : Nat := 10) : List GenCandidate :=
  (List.range num_candidates).map (genCandidate g role_title)

/-- `INSERT INTO roles (title, description, date_created) VALUES (?, ?, ?)`:
appends a row with the next AUTOINCREMENT id (`cur.lastrowid` is that id). -/
def insertRole (db : DB) (title description date_created : String) : DB :=
  { db with
    roles := db.roles ++ [⟨db.next_role_id, title, description, date_created⟩]
    next_role_id := db.next_role_id + 1 }

/-- The candidate row built from a generated candidate dict by the INSERT
inside the for-loop of `new_role` (id from AUTOINCREMENT, role_id from
`cur.lastrowid`). -/
def candidateRow (cid rid : Nat) (c : GenCandidate) : CandidateRow :=
  ⟨cid, rid, c.name, c.current_title, c.company, c.location, c.linkedin,
   c.match_reason, c.fit_score, c.culture_score, c.experience_score⟩

/-- One `INSERT INTO candidates ...` execution. -/
def insertCandidate (db : DB) (rid : Nat) (c : GenCandidate) : DB :=
  { db with
    candidates := db.candidates ++ [candidateRow db.next_candidate_id rid c]
    next_candidate_id := db.next_candidate_id + 1 }

/-- The `for candidate in candidates:` insertion loop of `new_role`. -/
def insertCandidates (db : DB) (rid : Nat) : List GenCandidate → DB
  | [] => db
  | c :: rest => insertCandidates (insertCandidate db rid c) rid rest

/-- The rows appended to the candidates table by `insertCandidates` when
the AUTOINCREMENT counter starts at `cid`. -/
def newCandidateRows (cid rid : Nat) : List GenCandidate → List CandidateRow
  | [] => []
  | c :: rest => candidateRow cid rid c :: newCandidateRows (cid + 1) rid rest

/-- The HTTP responses the three handlers can produce (redirects carry the
flashed message; renders carry the data handed to the template). -/
inductive Response where
  | redirectNewRole (flash : String)
  | redirectViewRole (role_id : Nat) (flash : String)
  | redirectIndex (flash : String)
  | renderIndex (rows : List (RoleRow × Nat))
  | renderRole (role : RoleRow) (candidates : List CandidateRow)
deriving DecidableEq, Repr

/-- Falsiness of `request.form.get(...)` under `if not title or not
description:`  — the field is absent (None) or the empty string. -/
def formFalsy : Option String → Bool
  | none => true
  | some s => s == ""

/-- The `ORDER BY fit_score DESC` comparison: earlier rows have
fit_score at least that of later rows. -/
def fitDesc (a b : CandidateRow) : Prop := b.fit_score ≤ a.fit_score

instance : DecidableRel fitDesc := fun a b =>
  inferInstanceAs (Decidable (b.fit_score ≤ a.fit_score))

instance : IsTotal CandidateRow fitDesc :=
  ⟨fun a b => le_total b.fit_score a.fit_score⟩

instance : IsTrans CandidateRow fitDesc :=
  ⟨fun _ _ _ hab hbc => le_trans hbc hab⟩

/-- The `ORDER BY r.date_created DESC` comparison (SQLite compares TEXT
lexicographically; `date_created` holds ISO-8601 UTC timestamps, on which
lexicographic order is chronological order). -/
def dateDesc (a b : RoleRow) : Prop := b.date_created ≤ a.date_created

instance : DecidableRel dateDesc := fun a b =>
  inferInstanceAs (Decidable (b.date_created ≤ a.date_created))

instance : IsTotal RoleRow dateDesc :=
  ⟨fun a b => le_total b.date_created a.date_created⟩

instance : IsTrans RoleRow dateDesc :=
  ⟨fun _ _ _ hab hbc => le_trans hbc hab⟩

/-- `SELECT * FROM candidates WHERE role_id = ? ORDER BY fit_score DESC`:
the rows of the candidates table matching the role id, in some order that
is non-increasing in fit_score (insertion sort realises one such order). -/
def listCandidatesForRole (db : DB) (rid : Nat) : List CandidateRow :=
  List.insertionSort fitDesc (db.candidates.filter fun c => c.role_id == rid)

/-- `COUNT(c.id)` of the LEFT JOIN for one role id. -/
def candidateCount (db : DB) (rid : Nat) : Nat :=
  (db.candidates.filter fun c => c.role_id == rid).length

/-- The query of the index handler: one row per role with its candidate
count, ordered by `date_created DESC`. -/
def listRolesWithCounts (db : DB) : List (RoleRow × Nat) :=
  (List.insertionSort dateDesc db.roles).map fun r => (r, candidateCount db r.id)

/-- The `GET /` handler: renders the roles listing; no writes. -/
def index (db : DB) : DB × Response :=
  (db, .renderIndex (listRolesWithCounts db))

/-- The `POST /role/new` handler. `title`/`description` are
`request.form.get` results (`none` when the field is absent), `now` is
`datetime.utcnow().isoformat()`, `g` the randomness stream. -/
def new_role_post (g : Nat → Nat) (now : String) (db : DB)
    (title description : Option String) : DB × Response :=
  if formFalsy title || formFalsy description then
    (db, .redirectNewRole "Please provide both a title and a job description.")
  else
    let t := title.getD ""
    let d := description.getD ""
    let role_id := db.next_role_id
    let db1 := insertRole db t d now
    let cs := generate_dummy_candidates g t 10
    let db2 := insertCandidates db1 role_id cs
    (db2, .redirectViewRole role_id
      "Role created and candidates generated successfully!")

/-- The durable states of a successful `POST /role/new`, one per
`conn.commit()` in source order: the first commit happens right after the
role INSERT (before any candidate is inserted), the second after the
candidate loop. -/
def new_role_commits (g : Nat → Nat) (now : String) (db : DB)
    (t d : String) : List DB :=
  let db1 := insertRole db t d now
  [db1, insertCandidates db1 db.next_role_id (generate_dummy_candidates g t 10)]

/-- The `GET /role/{id}` handler: looks up the role, fetches its ranked
candidates, and renders or redirects; no writes. -/
def view_role (db : DB) (rid : Nat) : DB × Response :=
  let role := db.roles.find? fun r => r.id == rid
  let cands := listCandidatesForRole db rid
  match role with
  | none => (db, .redirectIndex "Role not found.")
  | some r => (db, .renderRole r cands)

/-- Both bound checks of a score, as a decidable boolean. -/
def scoreInRange (n : Nat) : Bool :=
  decide (60 ≤ n) && decide (n ≤ 100)

/-! ## Helper lemmas -/

theorem getD_mem : ∀ (l : List α) (n : Nat) (d : α), n < l.length → l.getD n d ∈ l
  | a :: l, 0, _, _ => List.mem_cons_self a l
  | a :: l, n + 1, d, h =>
      List.mem_cons_of_mem a (getD_mem l n d (Nat.lt_of_succ_lt_succ h))

theorem choiceAt_mem (g : Nat → Nat) (k : Nat) (l : List α) (d : α)
    (h : 0 < l.length) : choiceAt g k l d ∈ l :=
  getD_mem l _ d (Nat.mod_lt _ h)

theorem randintAt_lo (g : Nat → Nat) (k lo hi : Nat) : lo ≤ randintAt g k lo hi :=
  Nat.le_add_right lo _

theorem randintAt_hi (g : Nat → Nat) (k lo hi : Nat) (h : lo ≤ hi) :
    randintAt g k lo hi ≤ hi := by
  have hm : g k % (hi - lo + 1) ≤ hi - lo :=
    Nat.lt_succ_iff.mp (Nat.mod_lt _ (Nat.succ_pos _))
  calc lo + g k % (hi - lo + 1) ≤ lo + (hi - lo) := Nat.add_le_add_left hm lo
    _ = hi := Nat.add_sub_cancel' h

theorem scoreInRange_randintAt (g : Nat → Nat) (k : Nat) :
    scoreInRange (randintAt g k 60 100) = true := by
  simp only [scoreInRange, Bool.and_eq_true, decide_eq_true_iff]
  exact ⟨randintAt_lo g k 60 100, randintAt_hi g k 60 100 (by norm_num)⟩

theorem insertCandidates_roles (rid : Nat) :
    ∀ (cs : List GenCandidate) (db : DB), (insertCandidates db rid cs).roles = db.roles
  | [], _ => rfl
  | _ :: rest, db => insertCandidates_roles rid rest (insertCandidate db rid _)

theorem insertCandidates_candidates (rid : Nat) :
    ∀ (cs : List GenCandidate) (db : DB),
      (insertCandidates db rid cs).candidates
        = db.candidates ++ newCandidateRows db.next_candidate_id rid cs
  | [], db => by simp [insertCandidates, newCandidateRows]
  | c :: rest, db => by
    rw [insertCandidates, insertCandidates_candidates rid rest]
    simp [insertCandidate, newCandidateRows, List.append_assoc]

theorem newCandidateRows_length (rid : Nat) :
    ∀ (cs : List GenCandidate) (cid : Nat), (newCandidateRows cid rid cs).length = cs.length
  | [], _ => rfl
  | _ :: rest, cid => by
    simp [newCandidateRows, newCandidateRows_length rid rest (cid + 1)]

theorem newCandidateRows_mem (rid : Nat) :
    ∀ (cs : List GenCandidate) (cid : Nat), ∀ x ∈ newCandidateRows cid rid cs,
      ∃ c ∈ cs, ∃ k, x = candidateRow k rid c
  | c :: rest, cid, x, hx => by
    rcases List.mem_cons.mp hx with h | h
    · exact ⟨c, List.mem_cons_self c rest, cid, h⟩
    · rcases newCandidateRows_mem rid rest (cid + 1) x h with ⟨c', hc', k, hk⟩
      exact ⟨c', List.mem_cons_of_mem c hc', k, hk⟩

theorem generate_mem (g : Nat → Nat) (t : String) (n : Nat) (c : GenCandidate)
    (hc : c ∈ generate_dummy_candidates g t n) : ∃ i, c = genCandidate g t i := by
  rcases List.mem_map.mp hc with ⟨i, _, hi⟩
  exact ⟨i, hi.symm⟩

theorem genCandidate_scores (g : Nat → Nat) (t : String) (i : Nat) :
    scoreInRange (genCandidate g t i).fit_score = true
  ∧ scoreInRange (genCandidate g t i).culture_score = true
  ∧ scoreInRange (genCandidate g t i).experience_score = true :=
  ⟨scoreInRange_randintAt g _, scoreInRange_randintAt g _, scoreInRange_randintAt g _⟩

theorem formFalsy_eq_false {s : Option String} (h : formFalsy s = false) :
    ∃ t : String, s = some t ∧ t ≠ "" := by
  match s with
  | none => exact absurd h (by simp [formFalsy])
  | some t =>
    refine ⟨t, rfl, ?_⟩
    simpa [formFalsy] using h

theorem formFalsy_some_ne {t : String} (h : t ≠ "") : formFalsy (some t) = false := by
  simpa [formFalsy] using h

/-- The success path of `new_role_post`, spelled out. -/
theorem new_role_post_success (g : Nat → Nat) (now : String) (db : DB)
    {t d : String} (ht : t ≠ "") (hd : d ≠ "") :
    new_role_post g now db (some t) (some d)
      = (insertCandidates (insertRole db t d now) db.next_role_id
           (generate_dummy_candidates g t 10),
         .redirectViewRole db.next_role_id
           "Role created and candidates generated successfully!") := by
  rw [new_role_post, formFalsy_some_ne ht, formFalsy_some_ne hd]
  rfl

theorem newCandidateRows_all_role_id (rid : Nat) :
    ∀ (cs : List GenCandidate) (cid : Nat),
      ((newCandidateRows cid rid cs).all fun x => x.role_id == rid) = true
  | [], _ => rfl
  | c :: rest, cid => by
    simp [newCandidateRows, candidateRow,
      newCandidateRows_all_role_id rid rest (cid + 1)]

theorem formFalsy_eq_true (o : Option String) :
    formFalsy o = true ↔ o = none ∨ o = some "" := by
  match o with
  | none => simp [formFalsy]
  | some s => simp [formFalsy]

/-- A fixed randomness stream used by concrete witnesses. -/
def g0 : Nat → Nat := fun _ => 0

/-! ## Claim theorems -/

/-- C1: a POST to /role/new with non-empty title and description appends
exactly one role row (with the fresh id, the submitted fields and the
request timestamp), appends exactly 10 candidate rows, every appended
candidate row carries role_id equal to the new role id, and the response
is a redirect to /role/{id} for that id. -/
theorem C1_create_role_success (g : Nat → Nat) (now : String) (db : DB)
    (t d : String) (ht : t ≠ "") (hd : d ≠ "") :
    (new_role_post g now db (some t) (some d)).1.roles
        = db.roles ++ [⟨db.next_role_id, t, d, now⟩]
  ∧ (new_role_post g now db (some t) (some d)).1.candidates.length
        = db.candidates.length + 10
  ∧ (((new_role_post g now db (some t) (some d)).1.candidates.drop
        db.candidates.length).all fun x => x.role_id == db.next_role_id) = true
  ∧ (new_role_post g now db (some t) (some d)).2
        = Response.redirectViewRole db.next_role_id
            "Role created and candidates generated successfully!" := by
  rw [new_role_post_success g now db ht hd]
  refine ⟨?_, ?_, ?_, rfl⟩
  · rw [insertCandidates_roles]
    rfl
  · rw [insertCandidates_candidates]
    simp [insertRole, newCandidateRows_length, generate_dummy_candidates]
  · rw [insertCandidates_candidates]
    have : (insertRole db t d now).candidates = db.candidates := rfl
    rw [this, List.drop_left]
    exact newCandidateRows_all_role_id db.next_role_id _ _

/-- C1 witness: the theorem instantiated at the empty database with
title "Backend Engineer" and description "Own our API". -/
theorem C1_create_role_success_witness :
    (new_role_post g0 "2024-01-01T00:00:00" emptyDB
        (some "Backend Engineer") (some "Own our API")).1.roles
        = emptyDB.roles
            ++ [⟨emptyDB.next_role_id, "Backend Engineer", "Own our API",
                 "2024-01-01T00:00:00"⟩]
  ∧ (new_role_post g0 "2024-01-01T00:00:00" emptyDB
        (some "Backend Engineer") (some "Own our API")).1.candidates.length
        = emptyDB.candidates.length + 10
  ∧ (((new_role_post g0 "2024-01-01T00:00:00" emptyDB
        (some "Backend Engineer") (some "Own our API")).1.candidates.drop
        emptyDB.candidates.length).all
          fun x => x.role_id == emptyDB.next_role_id) = true
  ∧ (new_role_post g0 "2024-01-01T00:00:00" emptyDB
        (some "Backend Engineer") (some "Own our API")).2
        = Response.redirectViewRole emptyDB.next_role_id
            "Role created and candidates generated successfully!" :=
  C1_create_role_success g0 "2024-01-01T00:00:00" emptyDB
    "Backend Engineer" "Own our API" (by decide) (by decide)

/-- C3: a POST to /role/new whose title or description is absent or the
empty string leaves the database unchanged and responds with a redirect
back to the creation form carrying the validation flash message. -/
theorem C3_validation_failure (g : Nat → Nat) (now : String) (db : DB)
    (title description : Option String)
    (h : title = none ∨ title = some "" ∨ description = none
          ∨ description = some "") :
    new_role_post g now db title description
      = (db, Response.redirectNewRole
              "Please provide both a title and a job description.") := by
  have hf : (formFalsy title || formFalsy description) = true := by
    rcases h with h | h | h | h <;> subst h <;> simp [formFalsy]
  simp [new_role_post, hf]

/-- C3 witness: the theorem instantiated at a request with the title
field absent and description "Build things". -/
theorem C3_validation_failure_witness :
    new_role_post g0 "2024-01-01T00:00:00" emptyDB none (some "Build things")
      = (emptyDB, Response.redirectNewRole
              "Please provide both a title and a job description.") :=
  C3_validation_failure g0 "2024-01-01T00:00:00" emptyDB none
    (some "Build things") (Or.inl rfl)

/-- C4: a GET of /role/{id} for an id matching no role row leaves the
database (both tables) unchanged and responds with a redirect to the
index carrying the not-found flash message. -/
theorem C4_view_role_not_found (db : DB) (rid : Nat)
    (h : ∀ r ∈ db.roles, r.id ≠ rid) :
    view_role db rid = (db, Response.redirectIndex "Role not found.") := by
  have hf : (db.roles.find? fun r => r.id == rid) = none := by
    apply List.find?_eq_none.mpr
    intro r hr
    simpa using h r hr
  simp [view_role, hf]

/-- C4 witness: the theorem instantiated at the empty database and id 1. -/
theorem C4_view_role_not_found_witness :
    view_role emptyDB 1 = (emptyDB, Response.redirectIndex "Role not found.") :=
  C4_view_role_not_found emptyDB 1 (by decide)

/-- C5: the candidate sequence of the role-detail view is sorted by
fit_score non-increasing: pairwise, every earlier element has fit_score
at least that of every later element (ties in any order). -/
theorem C5_candidates_sorted_by_fit (db : DB) (rid : Nat) :
    (listCandidatesForRole db rid).Pairwise
      fun a b => b.fit_score ≤ a.fit_score :=
  List.sorted_insertionSort fitDesc _

/-- C9: the candidate generator is total: for every randomness stream,
role title and count it returns exactly `count` records, and the count
argument defaults to 10. -/
theorem C9_generator_total (g : Nat → Nat) (t : String) (n : Nat) :
    (generate_dummy_candidates g t n).length = n
  ∧ generate_dummy_candidates g t = generate_dummy_candidates g t 10 :=
  ⟨by simp [generate_dummy_candidates], rfl⟩

/-- C6: for every database state, the index listing has exactly one row
per role (its underlying roles are a permutation of the roles table, so
roles with zero candidates appear too), is pairwise sorted by
date_created non-increasing, and every row carries as its count the
number of candidate rows whose role_id equals that role id. -/
theorem C6_roles_listing (db : DB) :
    (index db).2 = Response.renderIndex (listRolesWithCounts db)
  ∧ ((listRolesWithCounts db).map Prod.fst).Perm db.roles
  ∧ (listRolesWithCounts db).Pairwise
      (fun p q => q.1.date_created ≤ p.1.date_created)
  ∧ ((listRolesWithCounts db).all fun p =>
      p.2 == (db.candidates.filter fun c => c.role_id == p.1.id).length) = true := by
  refine ⟨rfl, ?_, ?_, ?_⟩
  · have : (listRolesWithCounts db).map Prod.fst
        = List.insertionSort dateDesc db.roles := by
      simp [listRolesWithCounts, List.map_map, Function.comp_def]
    rw [this]
    exact List.perm_insertionSort dateDesc db.roles
  · exact List.pairwise_map.mpr (List.sorted_insertionSort dateDesc db.roles)
  · rw [List.all_eq_true]
    intro p hp
    rcases List.mem_map.mp hp with ⟨r, _, hr⟩
    subst hr
    simp [candidateCount]

/-- C7: every candidate row persisted by a successful role creation (that
is, every row of the resulting candidates table that is not a
pre-existing row) has fit_score, culture_score and experience_score in
the closed range [60, 100]. -/
theorem C7_scores_in_range (g : Nat → Nat) (now : String) (db : DB)
    (t d : String) (ht : t ≠ "") (hd : d ≠ "") :
    (((new_role_post g now db (some t) (some d)).1.candidates).all fun x =>
        db.candidates.contains x
          || (scoreInRange x.fit_score && scoreInRange x.culture_score
              && scoreInRange x.experience_score)) = true := by
  rw [new_role_post_success g now db ht hd]
  show ((insertCandidates (insertRole db t d now) db.next_role_id
      (generate_dummy_candidates g t 10)).candidates.all _) = true
  rw [insertCandidates_candidates]
  have hins : (insertRole db t d now).candidates = db.candidates := rfl
  rw [hins, List.all_append, Bool.and_eq_true]
  constructor
  · rw [List.all_eq_true]
    intro x hx
    simp [hx]
  · rw [List.all_eq_true]
    intro x hx
    rcases newCandidateRows_mem db.next_role_id _ _ x hx with ⟨c, hc, k, hk⟩
    rcases generate_mem g t 10 c hc with ⟨i, hi⟩
    subst hk
    subst hi
    have hs := genCandidate_scores g t i
    simp [candidateRow, hs.1, hs.2.1, hs.2.2]

/-- C7 witness: the theorem instantiated at the empty database with
title "Backend Engineer" and description "Own our API". -/
theorem C7_scores_in_range_witness :
    (((new_role_post g0 "2024-01-01T00:00:00" emptyDB
        (some "Backend Engineer") (some "Own our API")).1.candidates).all
          fun x =>
        emptyDB.candidates.contains x
          || (scoreInRange x.fit_score && scoreInRange x.culture_score
              && scoreInRange x.experience_score)) = true :=
  C7_scores_in_range g0 "2024-01-01T00:00:00" emptyDB
    "Backend Engineer" "Own our API" (by decide) (by decide)

/-- C8: every generated candidate has a current_title drawn from exactly
the five templates interpolating the role title (hence the role title
occurs in it as a substring), and a linkedin field equal to the fixed
prefix followed by the sampled first name lowercased immediately
concatenated with the sampled last name lowercased (the same two names
that form the candidate name). -/
theorem C8_generated_fields (g : Nat → Nat) (t : String) (n : Nat)
    (c : GenCandidate) (hc : c ∈ generate_dummy_candidates g t n) :
    c.current_title ∈ title_templates t
  ∧ (∃ p q, c.current_title = p ++ t ++ q)
  ∧ ∃ first ∈ first_names, ∃ last ∈ last_names,
      c.name = first ++ " " ++ last
    ∧ c.linkedin = "https://linkedin.com/in/" ++ first.toLower ++ last.toLower := by
  rcases generate_mem g t n c hc with ⟨i, hi⟩
  subst hi
  refine ⟨?_, ?_, ?_⟩
  · exact choiceAt_mem g _ (title_templates t) "" (by simp [title_templates])
  · have hmem : (genCandidate g t i).current_title ∈ title_templates t :=
      choiceAt_mem g _ (title_templates t) "" (by simp [title_templates])
    simp only [title_templates, List.mem_cons, List.mem_singleton,
      List.not_mem_nil, or_false] at hmem
    rcases hmem with h | h | h | h | h <;> rw [h]
    · exact ⟨"Senior ", "", by rw [String.append_empty]⟩
    · exact ⟨"", " II", by rw [String.empty_append]⟩
    · exact ⟨"Lead ", "", by rw [String.append_empty]⟩
    · exact ⟨"", " Specialist", by rw [String.empty_append]⟩
    · exact ⟨"", " Consultant", by rw [String.empty_append]⟩
  · exact ⟨choiceAt g (9 * i) first_names "",
      choiceAt_mem g _ first_names "" (by simp [first_names]),
      choiceAt g (9 * i + 1) last_names "",
      choiceAt_mem g _ last_names "" (by simp [last_names]),
      rfl, rfl⟩

/-- C8 witness: the theorem instantiated at the concrete stream `g0`, the
role title "Backend Engineer", count 1, and the single candidate this
run generates. -/
theorem C8_generated_fields_witness :
    (genCandidate g0 "Backend Engineer" 0).current_title
        ∈ title_templates "Backend Engineer"
  ∧ (∃ p q, (genCandidate g0 "Backend Engineer" 0).current_title
        = p ++ "Backend Engineer" ++ q)
  ∧ ∃ first ∈ first_names, ∃ last ∈ last_names,
      (genCandidate g0 "Backend Engineer" 0).name = first ++ " " ++ last
    ∧ (genCandidate g0 "Backend Engineer" 0).linkedin
        = "https://linkedin.com/in/" ++ first.toLower ++ last.toLower :=
  C8_generated_fields g0 "Backend Engineer" 1 (genCandidate g0 "Backend Engineer" 0)
    (by simp [generate_dummy_candidates])

/-- C10: the validation rejects exactly the requests whose title or
description is absent or the empty string; in particular a whitespace-only
title and description pass validation and the role row is persisted with
those field values unchanged (no trimming). -/
theorem C10_validation_boundary (g : Nat → Nat) (now : String) (db : DB)
    (title description : Option String) :
    ((new_role_post g now db title description).2
        = Response.redirectNewRole
            "Please provide both a title and a job description."
      ↔ (title = none ∨ title = some "" ∨ description = none
          ∨ description = some ""))
  ∧ (new_role_post g now db (some " ") (some " ")).1.roles
      = db.roles ++ [⟨db.next_role_id, " ", " ", now⟩]
  ∧ (new_role_post g now db (some " ") (some " ")).2
      = Response.redirectViewRole db.next_role_id
          "Role created and candidates generated successfully!" := by
  refine ⟨?_, ?_, ?_⟩
  · by_cases hc : (formFalsy title || formFalsy description) = true
    · rw [Bool.or_eq_true, formFalsy_eq_true, formFalsy_eq_true] at hc
      constructor
      · intro _
        tauto
      · intro _
        simp only [new_role_post]
        rw [if_pos]
        rw [Bool.or_eq_true, formFalsy_eq_true, formFalsy_eq_true]
        tauto
    · simp only [Bool.or_eq_true, not_or, Bool.not_eq_true] at hc
      rcases formFalsy_eq_false hc.1 with ⟨t, hts, htn⟩
      rcases formFalsy_eq_false hc.2 with ⟨d, hds, hdn⟩
      subst hts
      subst hds
      rw [new_role_post_success g now db htn hdn]
      constructor
      · intro h
        exact absurd h (by simp)
      · intro h
        rcases h with h | h | h | h <;> simp_all
  · rw [new_role_post_success g now db (by decide) (by decide),
      insertCandidates_roles]
    rfl
  · rw [new_role_post_success g now db (by decide) (by decide)]

/-- C2 (counterexample): role creation is not an atomic unit. For the
concrete request POST /role/new with title "Engineer" and description
"Build APIs" against the empty database, it is false that every durable
(committed) state holds either nothing or the role together with its 10
candidates: the state committed by the first conn.commit(), right after
the role INSERT and before any candidate INSERT, holds 1 role row and 0
candidate rows. -/
theorem C2_not_atomic_counterexample :
    ¬ (∀ s ∈ new_role_commits g0 "2024-01-01T00:00:00" emptyDB
          "Engineer" "Build APIs",
        (s.roles.length = 0 ∧ s.candidates.length = 0)
          ∨ (s.roles.length = 1 ∧ s.candidates.length = 10)) := by
  intro h
  have h1 := h (insertRole emptyDB "Engineer" "Build APIs" "2024-01-01T00:00:00")
    (List.mem_cons_self _ _)
  rcases h1 with ⟨h1, _⟩ | ⟨_, h1⟩ <;> exact absurd h1 (by decide)

/-- C2 (amended): a successful role creation commits twice: the first
durable state holds the new role row and no new candidate rows, and the
second durable state, which is also the handler's final state, holds the
role and all 10 of its candidates; so an interruption between the two
commits leaves a persisted role without candidates, and only a run
reaching the second commit persists the full batch. -/
theorem C2_two_commit_persistence (g : Nat → Nat) (now : String) (db : DB)
    (t d : String) (ht : t ≠ "") (hd : d ≠ "") :
    new_role_commits g now db t d
      = [insertRole db t d now, (new_role_post g now db (some t) (some d)).1]
  ∧ (insertRole db t d now).roles = db.roles ++ [⟨db.next_role_id, t, d, now⟩]
  ∧ (insertRole db t d now).candidates = db.candidates
  ∧ (new_role_post g now db (some t) (some d)).1.candidates.length
      = db.candidates.length + 10 := by
  rw [new_role_post_success g now db ht hd]
  refine ⟨rfl, rfl, rfl, ?_⟩
  show (insertCandidates (insertRole db t d now) db.next_role_id
      (generate_dummy_candidates g t 10)).candidates.length
    = db.candidates.length + 10
  rw [insertCandidates_candidates]
  simp [insertRole, newCandidateRows_length, generate_dummy_candidates]

/-- C2 witness: the amended theorem instantiated at the empty database
with title "Engineer" and description "Build APIs". -/
theorem C2_two_commit_persistence_witness :
    new_role_commits g0 "2024-01-01T00:00:00" emptyDB "Engineer" "Build APIs"
      = [insertRole emptyDB "Engineer" "Build APIs" "2024-01-01T00:00:00",
         (new_role_post g0 "2024-01-01T00:00:00" emptyDB
            (some "Engineer") (some "Build APIs")).1]
  ∧ (insertRole emptyDB "Engineer" "Build APIs" "2024-01-01T00:00:00").roles
      = emptyDB.roles
        ++ [⟨emptyDB.next_role_id, "Engineer", "Build APIs",
             "2024-01-01T00:00:00"⟩]
  ∧ (insertRole emptyDB "Engineer" "Build APIs"
        "2024-01-01T00:00:00").candidates = emptyDB.candidates
  ∧ (new_role_post g0 "2024-01-01T00:00:00" emptyDB
        (some "Engineer") (some "Build APIs")).1.candidates.length
      = emptyDB.candidates.length + 10 :=
  C2_two_commit_persistence g0 "2024-01-01T00:00:00" emptyDB
    "Engineer" "Build APIs" (by decide) (by decide)

end HireLoop
